import Mathlib

/-!
Verification of the authentication core of an e-commerce admin dashboard
backend (NestJS/TypeScript).  The definitions below are a shallow embedding
of the source files: `jwt.service.ts`, `password.service.ts`,
`users.service.ts`, `auth.service.ts`, `guards/jwt-auth.guard.ts`,
`guards/roles.guard.ts`.  External collaborators (the `jsonwebtoken`
library, `bcrypt`, the Prisma-backed store, configuration) are modelled as
explicit parameters; everything else is translated statement by statement
from the TypeScript.  Timestamp columns (`created_at`, `updated_at`,
`email_confirmed_at`) carry no logic in the claims and are elided from the
row types.
-/

deriving instance DecidableEq for Except

namespace ECommerceAuth

/-! ## Data model -/

/-- Source `JwtPayload` interface of `jwt.service.ts`: `sub`, `email`, `role`
with optional `iat` / `exp` (seconds since epoch). -/
structure JwtPayload where
  sub : String
  email : String
  role : String
  iat : Option Nat := none
  exp : Option Nat := none
deriving DecidableEq, Repr

/-- The claims actually embedded in a signed token: the stripped
`{sub, email, role}` plus the `iat`/`exp` stamped by `jwt.sign`. -/
structure SignedClaims where
  sub : String
  email : String
  role : String
  iat : Nat
  exp : Nat
deriving DecidableEq, Repr

/-- Model of a compact JWT string: either not a well-formed signed token at
all, or a token carrying claims and signed under some secret.  The secret
component models the HMAC signature: verification under `s` succeeds only
for tokens signed under the same `s`. -/
inductive Token where
  | malformed (raw : String)
  | signed (claims : SignedClaims) (secret : String)
deriving DecidableEq, Repr

/-- Source `TokenPair` / `TokenResponse` of `jwt.service.ts`. -/
structure TokenPair where
  access_token : Token
  refresh_token : Token
deriving DecidableEq, Repr

/-- The `jwt.*` configuration values read through `ConfigService`:
each may be unset.  Expirations are in seconds (the source's `'15m'` /
`'7d'` strings after duration parsing). -/
structure Config where
  jwtSecret : Option String
  accessTokenExpiration : Option Nat
  refreshTokenExpiration : Option Nat
deriving DecidableEq, Repr

/-- The NestJS exceptions thrown by the auth core, plus raw store errors
(`db code`, carrying a Prisma error code such as `"P2002"`) and plain
`Error` values (`generic`) that cross a `try`/`catch` boundary before
being mapped to an HTTP exception. -/
inductive AuthError where
  | badRequest (message : String) (errors : List String)
  | unauthorized (message : String)
  | forbidden (message : String)
  | notFound (message : String)
  | conflict (message : String)
  | internal (message : String)
  | db (code : String)
  | generic (message : String)
deriving DecidableEq, Repr

/-- HTTP status of each exception (NestJS defaults; uncaught raw errors
surface as 500). -/
def AuthError.status : AuthError → Nat
  | .badRequest _ _ => 400
  | .unauthorized _ => 401
  | .forbidden _ => 403
  | .notFound _ => 404
  | .conflict _ => 409
  | .internal _ => 500
  | .db _ => 500
  | .generic _ => 500

/-- A row of `public.profiles` (Prisma model `profiles`). -/
structure Profile where
  id : String
  email : String
  full_name : Option String
  role : Option String
deriving DecidableEq, Repr

/-- A row of `auth.users` (Prisma model `users`): only the columns the
auth core reads or writes. -/
structure AuthUser where
  id : String
  email : String
  encrypted_password : Option String
deriving DecidableEq, Repr

/-- The Prisma-backed store, modelled as the outcomes of the individual
queries the auth core issues.  A query either succeeds (returning the
row or `none`) or fails with an error code string. -/
structure StoreEnv where
  profilesFindUniqueByEmail : String → Except String (Option Profile)
  profilesFindUniqueById : String → Except String (Option Profile)
  usersFindFirstByEmail : String → Except String (Option AuthUser)
  usersCreate : AuthUser → Except String AuthUser
  profilesCreate : Profile → Except String Profile

/-- The `bcrypt` primitives, modelled as outcomes: `bcrypt.hash` and
`bcrypt.compare` either succeed or reject. -/
structure CryptoEnv where
  bcryptHash : String → Except String String
  bcryptCompare : String → String → Except String Bool

/-- A store write attempted by the registration flow. -/
inductive StoreWrite where
  | usersCreate (row : AuthUser)
  | profilesCreate (row : Profile)
deriving DecidableEq, Repr

/-- Source `RegisterDto`. -/
structure RegisterDto where
  email : String
  password : String
  full_name : String
deriving DecidableEq, Repr

/-- Source `LoginDto`. -/
structure LoginDto where
  email : String
  password : String
deriving DecidableEq, Repr

/-- Source `CreateUserDto` of `users.service.ts`. -/
structure CreateUserDto where
  id : String
  email : String
  full_name : String
  role : Option String
deriving DecidableEq, Repr

/-- The `user` object of an `AuthResponse`. -/
structure UserInfo where
  id : String
  email : String
  role : Option String
  full_name : String
deriving DecidableEq, Repr

/-- Source `AuthResponse` of `auth-response.dto.ts`. -/
structure AuthResponse where
  access_token : Token
  refresh_token : Token
  user : UserInfo
deriving DecidableEq, Repr

/-- Source `ValidationResult` of `password.service.ts`. -/
structure ValidationResult where
  isValid : Bool
  errors : List String
deriving DecidableEq, Repr

/-- The identity attached to `request.user` by the JWT auth guard. -/
structure ReqUser where
  id : String
  email : String
  role : String
deriving DecidableEq, Repr

/-! ## `jsonwebtoken` primitive model

`jwt.sign(payload, secret, { expiresIn })` stamps `iat = now` and
`exp = now + expiresIn` and signs under `secret`.  `jwt.verify(token,
secret)` succeeds iff the token is structurally well formed, is signed
under the same secret, and is not yet expired (`jsonwebtoken` reports
`TokenExpiredError` exactly when the clock timestamp is `≥ exp`). -/

def jwtSign (sub email role : String) (secret : String) (now expiresIn : Nat) : Token :=
  Token.signed { sub := sub, email := email, role := role, iat := now, exp := now + expiresIn } secret

def jwtVerify (t : Token) (secret : String) (now : Nat) : Option SignedClaims :=
  match t with
  | .malformed _ => none
  | .signed claims s => if s = secret ∧ now < claims.exp then some claims else none

/-- JS `String.prototype.split` with a single-character separator, on the
character list: splitting the empty string yields `[""]`, consecutive
separators yield empty segments. -/
def splitChar (sep : Char) : List Char → List String
  | [] => [""]
  | c :: cs =>
      let rest := splitChar sep cs
      if c = sep then "" :: rest
      else
        match rest with
        | [] => [⟨[c]⟩]
        | r :: rs => ⟨c :: r.data⟩ :: rs

/-- Source `authHeader.split(' ')`. -/
def jsSplitOnSpace (s : String) : List String :=
  splitChar ' ' s.data

/-! ## JwtService (`jwt.service.ts`) -/

/-- Source `configService.get('jwt.secret') || 'default-secret'` (JS `||`: an
unset or empty string falls back). -/
def secretOf (cfg : Config) : String :=
  match cfg.jwtSecret with
  | some s => if s = "" then "default-secret" else s
  | none => "default-secret"

/-- Source `configService.get('jwt.accessTokenExpiration') || '15m'` (900 s). -/
def accessExpirationOf (cfg : Config) : Nat :=
  cfg.accessTokenExpiration.getD 900

/-- Source `configService.get('jwt.refreshTokenExpiration') || '7d'` (604800 s). -/
def refreshExpirationOf (cfg : Config) : Nat :=
  cfg.refreshTokenExpiration.getD 604800

namespace JwtService

/-- Source `generateAccessToken`: sign the payload with the configured secret and
15-minute expiration. -/
def generateAccessToken (cfg : Config) (now : Nat) (sub email role : String) : Token :=
  jwtSign sub email role (secretOf cfg) now (accessExpirationOf cfg)

/-- Source `generateRefreshToken`: sign the payload with the configured secret and
7-day expiration. -/
def generateRefreshToken (cfg : Config) (now : Nat) (sub email role : String) : Token :=
  jwtSign sub email role (secretOf cfg) now (refreshExpirationOf cfg)

/-- Source `generateTokens`: strip the payload to `{sub, email, role}` and sign
both tokens. -/
def generateTokens (cfg : Config) (now : Nat) (payload : JwtPayload) : TokenPair :=
  { access_token := generateAccessToken cfg now payload.sub payload.email payload.role
    refresh_token := generateRefreshToken cfg now payload.sub payload.email payload.role }

/-- Source `verifyAccessToken`: `jwt.verify` under the configured secret; any
failure becomes `UnauthorizedException('Invalid or expired access token')`. -/
def verifyAccessToken (cfg : Config) (now : Nat) (token : Token) : Except AuthError JwtPayload :=
  match jwtVerify token (secretOf cfg) now with
  | none => .error (.unauthorized "Invalid or expired access token")
  | some claims =>
      .ok { sub := claims.sub, email := claims.email, role := claims.role,
            iat := some claims.iat, exp := some claims.exp }

/-- Source `verifyRefreshToken`: identical to `verifyAccessToken` except for the
error message. -/
def verifyRefreshToken (cfg : Config) (now : Nat) (token : Token) : Except AuthError JwtPayload :=
  match jwtVerify token (secretOf cfg) now with
  | none => .error (.unauthorized "Invalid or expired refresh token")
  | some claims =>
      .ok { sub := claims.sub, email := claims.email, role := claims.role,
            iat := some claims.iat, exp := some claims.exp }

/-- Source `extractTokenFromHeader`: falsy header yields `null`; otherwise
destructure `authHeader.split(' ')` into its first two elements and
require the first to be `'Bearer'` and the second to be truthy. -/
def extractTokenFromHeader (authHeader : String) : Option String :=
  if authHeader = "" then none
  else
    match jsSplitOnSpace authHeader with
    | ty :: token :: _ => if ty = "Bearer" ∧ token ≠ "" then some token else none
    | _ => none

/-- Source `refreshTokens`: verify the refresh token, then `generateTokens` from
the extracted `{sub, email, role}` only. -/
def refreshTokens (cfg : Config) (now : Nat) (refreshToken : Token) : Except AuthError TokenPair :=
  match verifyRefreshToken cfg now refreshToken with
  | .error e => .error e
  | .ok payload =>
      .ok (generateTokens cfg now { sub := payload.sub, email := payload.email, role := payload.role })

end JwtService

/-! ## PasswordService (`password.service.ts`) -/

def lengthError : String := "Password must be at least 8 characters long"

def lowercaseError : String := "Password must contain at least one lowercase letter"

def uppercaseError : String := "Password must contain at least one uppercase letter"

def digitError : String := "Password must contain at least one digit"

def specialCharError : String := "Password must contain at least one special character (@$!%*?&)"

/-- Source `/[a-z]/.test(password)`. -/
def hasLowercase (password : String) : Bool :=
  password.data.any fun c => 'a' ≤ c && c ≤ 'z'

/-- Source `/[A-Z]/.test(password)`. -/
def hasUppercase (password : String) : Bool :=
  password.data.any fun c => 'A' ≤ c && c ≤ 'Z'

/-- Source `/\d/.test(password)`. -/
def hasDigit (password : String) : Bool :=
  password.data.any fun c => '0' ≤ c && c ≤ '9'

/-- Source `/[@$!%*?&]/.test(password)`. -/
def hasSpecialChar (password : String) : Bool :=
  password.data.any fun c => c ∈ ['@', '$', '!', '%', '*', '?', '&']

namespace PasswordService

/-- Source `hashPassword`: `bcrypt.hash(password, 12)`, with any rejection caught
and rethrown as `Error('Password hashing failed')`. -/
def hashPassword (crypto : CryptoEnv) (password : String) : Except AuthError String :=
  match crypto.bcryptHash password with
  | .ok h => .ok h
  | .error _ => .error (.generic "Password hashing failed")

/-- Source `comparePasswords`: `bcrypt.compare`, with any rejection caught and
rethrown as `Error('Password comparison failed')`. -/
def comparePasswords (crypto : CryptoEnv) (plainPassword hashedPassword : String) :
    Except AuthError Bool :=
  match crypto.bcryptCompare plainPassword hashedPassword with
  | .ok b => .ok b
  | .error _ => .error (.generic "Password comparison failed")

/-- Source `validatePasswordStrength`: push one message per violated rule, in the
source order, then report validity as emptiness of the list. -/
def validatePasswordStrength (password : String) : ValidationResult :=
  let errors : List String := []
  let errors := if password.length < 8 then errors ++ [lengthError] else errors
  let errors := if !hasLowercase password then errors ++ [lowercaseError] else errors
  let errors := if !hasUppercase password then errors ++ [uppercaseError] else errors
  let errors := if !hasDigit password then errors ++ [digitError] else errors
  let errors := if !hasSpecialChar password then errors ++ [specialCharError] else errors
  { isValid := errors.isEmpty, errors := errors }

end PasswordService

/-! ## UsersService (`users.service.ts`) -/

namespace UsersService

/-- Source `findByEmail`: `prisma.profiles.findUnique({ where: { email } })`,
catching any store error and returning `null`. -/
def findByEmail (env : StoreEnv) (email : String) : Option Profile :=
  match env.profilesFindUniqueByEmail email with
  | .ok user => user
  | .error _ => none

/-- Source `findById`: `prisma.profiles.findUnique({ where: { id } })`, catching
any store error and returning `null`. -/
def findById (env : StoreEnv) (id : String) : Option Profile :=
  match env.profilesFindUniqueById id with
  | .ok user => user
  | .error _ => none

/-- Source `create`: duplicate-email pre-check, then `prisma.profiles.create`
(role defaulting to `customer`).  Prisma `P2002` becomes
`ConflictException`; other store errors are rethrown raw.  The second
component records the store write attempted. -/
def create (env : StoreEnv) (userData : CreateUserDto) :
    Except AuthError Profile × List StoreWrite :=
  match findByEmail env userData.email with
  | some _ => (.error (.conflict "User with this email already exists"), [])
  | none =>
      let row : Profile :=
        { id := userData.id, email := userData.email,
          full_name := some userData.full_name,
          role := some (userData.role.getD "customer") }
      match env.profilesCreate row with
      | .ok user => (.ok user, [.profilesCreate row])
      | .error code =>
          if code = "P2002" then
            (.error (.conflict "User with this email already exists"), [.profilesCreate row])
          else
            (.error (.db code), [.profilesCreate row])

end UsersService

/-! ## AuthService (`auth.service.ts`) -/

namespace AuthService

/-- The `catch` block of `register`: `ConflictException` and
`BadRequestException` pass through, a raw store error with code `P2002`
becomes `ConflictException`, everything else becomes
`InternalServerErrorException('Registration failed. Please try again.')`. -/
def registerCatch : AuthError → AuthError
  | .conflict m => .conflict m
  | .badRequest m es => .badRequest m es
  | .db code =>
      if code = "P2002" then .conflict "User with this email already exists"
      else .internal "Registration failed. Please try again."
  | _ => .internal "Registration failed. Please try again."

/-- Source `register`: strength check, duplicate-email check, hash, create the
`auth.users` row and the profile, then issue tokens.  `userId` is the
`randomUUID()` drawn for the new user; the second component records the
store writes attempted. -/
def register (env : StoreEnv) (crypto : CryptoEnv) (userId : String) (cfg : Config)
    (now : Nat) (registerDto : RegisterDto) :
    Except AuthError AuthResponse × List StoreWrite :=
  let passwordValidation := PasswordService.validatePasswordStrength registerDto.password
  if passwordValidation.isValid = false then
    (.error (.badRequest "Password does not meet strength requirements" passwordValidation.errors), [])
  else
    match UsersService.findByEmail env registerDto.email with
    | some _ => (.error (.conflict "User with this email already exists"), [])
    | none =>
        match PasswordService.hashPassword crypto registerDto.password with
        | .error e => (.error (registerCatch e), [])
        | .ok hashedPassword =>
            let authRow : AuthUser :=
              { id := userId, email := registerDto.email,
                encrypted_password := some hashedPassword }
            match env.usersCreate authRow with
            | .error code => (.error (registerCatch (.db code)), [.usersCreate authRow])
            | .ok _ =>
                match UsersService.create env
                    { id := userId, email := registerDto.email,
                      full_name := registerDto.full_name, role := some "customer" } with
                | (.error e, writes) =>
                    (.error (registerCatch e), .usersCreate authRow :: writes)
                | (.ok user, writes) =>
                    let tokens := JwtService.generateTokens cfg now
                      { sub := user.id, email := user.email, role := user.role.getD "customer" }
                    (.ok { access_token := tokens.access_token,
                           refresh_token := tokens.refresh_token,
                           user := { id := user.id, email := user.email, role := user.role,
                                     full_name := user.full_name.getD "" } },
                     .usersCreate authRow :: writes)

/-- Source `validateUser`: look up the `auth.users` row, compare the password
against the stored hash, then return the profile.  The surrounding
`try`/`catch` turns any thrown error into `null`. -/
def validateUser (env : StoreEnv) (crypto : CryptoEnv) (email password : String) :
    Option Profile :=
  match env.usersFindFirstByEmail email with
  | .error _ => none
  | .ok none => none
  | .ok (some authUser) =>
      match authUser.encrypted_password with
      | none => none
      | some hash =>
          match PasswordService.comparePasswords crypto password hash with
          | .error _ => none
          | .ok false => none
          | .ok true => UsersService.findByEmail env email

/-- Source `login`: profile lookup, credential validation, token issuance; both
missing user and failed validation throw the same
`UnauthorizedException('Invalid credentials')`, which the `catch` block
rethrows unchanged. -/
def login (env : StoreEnv) (crypto : CryptoEnv) (cfg : Config) (now : Nat)
    (loginDto : LoginDto) : Except AuthError AuthResponse :=
  match UsersService.findByEmail env loginDto.email with
  | none => .error (.unauthorized "Invalid credentials")
  | some user =>
      match validateUser env crypto loginDto.email loginDto.password with
      | none => .error (.unauthorized "Invalid credentials")
      | some _ =>
          let tokens := JwtService.generateTokens cfg now
            { sub := user.id, email := user.email, role := user.role.getD "customer" }
          .ok { access_token := tokens.access_token,
                refresh_token := tokens.refresh_token,
                user := { id := user.id, email := user.email, role := user.role,
                          full_name := user.full_name.getD "" } }

/-- Source `refreshTokens` (orchestrator): delegate to `JwtService.refreshTokens`;
an `UnauthorizedException` passes through unchanged, anything else becomes
`InternalServerErrorException('Token refresh failed. Please login again.')`. -/
def refreshTokens (cfg : Config) (now : Nat) (refreshToken : Token) :
    Except AuthError TokenPair :=
  match JwtService.refreshTokens cfg now refreshToken with
  | .ok tokens => .ok tokens
  | .error e =>
      match e with
      | .unauthorized m => .error (.unauthorized m)
      | _ => .error (.internal "Token refresh failed. Please login again.")

end AuthService

/-! ## Guards (`jwt-auth.guard.ts`, `roles.guard.ts`) -/

namespace JwtAuthGuard

/-- Source `canActivate` of the JWT auth guard: read the `Authorization` header
(JS falsy check: absent or empty string is missing), extract the bearer
token, verify it, and attach `{id, email, role}` from the payload to the
request.  `decode` maps the compact token string to the token it denotes
(malformed strings denote `Token.malformed`); the guard has no access to
the user store — its constructor takes only the `JwtService`. -/
def canActivate (cfg : Config) (now : Nat) (decode : String → Token)
    (authHeader : Option String) : Except AuthError ReqUser :=
  match authHeader with
  | none => .error (.unauthorized "Authorization header is missing")
  | some h =>
      if h = "" then .error (.unauthorized "Authorization header is missing")
      else
        match JwtService.extractTokenFromHeader h with
        | none => .error (.unauthorized "Invalid authorization header format")
        | some tokenStr =>
            match JwtService.verifyAccessToken cfg now (decode tokenStr) with
            | .ok payload =>
                .ok { id := payload.sub, email := payload.email, role := payload.role }
            | .error e =>
                match e with
                | .unauthorized m => .error (.unauthorized m)
                | _ => .error (.unauthorized "Invalid or expired token")

/-- The guard placed in a system that also has a user store: the store is
available but the guard's code never consults it. -/
def canActivateWithStore (_store : StoreEnv) (cfg : Config) (now : Nat)
    (decode : String → Token) (authHeader : Option String) : Except AuthError ReqUser :=
  canActivate cfg now decode authHeader

end JwtAuthGuard

namespace RolesGuard

/-- Source `canActivate` of the roles guard: `requiredRoles` is the reflector
result (`none` when no `@Roles` metadata is declared), `user` is
`request.user` with its `role` field (`""` models a falsy role).  -/
def canActivate (requiredRoles : Option (List String)) (user : Option ReqUser) :
    Except AuthError Bool :=
  match requiredRoles with
  | none => .ok true
  | some roles =>
      if roles.isEmpty then .ok true
      else
        match user with
        | none => .error (.unauthorized "User not authenticated")
        | some u =>
            if u.role = "" then .error (.forbidden "User role not found")
            else if roles.contains u.role then .ok true
            else .error (.forbidden "Insufficient permissions")

end RolesGuard

/-! ## Validity predicate for tokens and concrete fixtures -/

/-- A token that `jwt.verify` rejects under `secret` at time `now`:
malformed, signed under a different secret, or expired. -/
def tokenInvalidFor (t : Token) (secret : String) (now : Nat) : Prop :=
  (∃ raw, t = Token.malformed raw) ∨
  (∃ claims s, t = Token.signed claims s ∧ s ≠ secret) ∨
  (∃ claims, t = Token.signed claims secret ∧ claims.exp ≤ now)

/-- Configuration with every `jwt.*` key unset, exercising the fallbacks. -/
def cfg0 : Config :=
  { jwtSecret := none, accessTokenExpiration := none, refreshTokenExpiration := none }

/-- A concrete identity for witnesses. -/
def ident0 : JwtPayload :=
  { sub := "id-1", email := "a@x.com", role := "customer" }

/-- A concrete signed-claims record for witnesses. -/
def claims0 : SignedClaims :=
  { sub := "id-1", email := "a@x.com", role := "customer", iat := 0, exp := 5 }

/-- A store whose every query fails. -/
def storeFailing : StoreEnv :=
  { profilesFindUniqueByEmail := fun _ => .error "DB_DOWN"
    profilesFindUniqueById := fun _ => .error "DB_DOWN"
    usersFindFirstByEmail := fun _ => .error "DB_DOWN"
    usersCreate := fun _ => .error "DB_DOWN"
    profilesCreate := fun _ => .error "DB_DOWN" }

/-- A store with no rows at all, every query succeeding. -/
def storeEmpty : StoreEnv :=
  { profilesFindUniqueByEmail := fun _ => .ok none
    profilesFindUniqueById := fun _ => .ok none
    usersFindFirstByEmail := fun _ => .ok none
    usersCreate := fun u => .ok u
    profilesCreate := fun p => .ok p }

/-- A concrete registered profile row. -/
def profile0 : Profile :=
  { id := "id-1", email := "a@x.com", full_name := some "A", role := some "customer" }

/-- A concrete `auth.users` row with a stored hash. -/
def authUser0 : AuthUser :=
  { id := "id-1", email := "a@x.com", encrypted_password := some "hash-of-pw" }

/-- A store holding exactly the user `a@x.com`. -/
def storeOneUser : StoreEnv :=
  { profilesFindUniqueByEmail := fun em => if em = "a@x.com" then .ok (some profile0) else .ok none
    profilesFindUniqueById := fun i => if i = "id-1" then .ok (some profile0) else .ok none
    usersFindFirstByEmail := fun em => if em = "a@x.com" then .ok (some authUser0) else .ok none
    usersCreate := fun u => .ok u
    profilesCreate := fun p => .ok p }

/-- A bcrypt model under which every comparison fails (no password matches
the stored hash). -/
def cryptoNoMatch : CryptoEnv :=
  { bcryptHash := fun pw => .ok ("bcrypt-" ++ pw)
    bcryptCompare := fun _ _ => .ok false }

/-! ## Claims -/

/-- C1: round-trip — for every identity `{sub, email, role}`, verifying the
access token of the pair produced by `generateTokens` (before its expiry,
under the same configuration) succeeds and returns a payload whose `sub`,
`email` and `role` equal the identity's; the same holds for the refresh
token under `verifyRefreshToken`. -/
theorem jwtService_generateTokens_verify_roundTrip (cfg : Config) (t1 t2 : Nat)
    (ident : JwtPayload)
    (hAccess : t2 < t1 + accessExpirationOf cfg)
    (hRefresh : t2 < t1 + refreshExpirationOf cfg) :
    JwtService.verifyAccessToken cfg t2 (JwtService.generateTokens cfg t1 ident).access_token =
      .ok { sub := ident.sub, email := ident.email, role := ident.role,
            iat := some t1, exp := some (t1 + accessExpirationOf cfg) } ∧
    JwtService.verifyRefreshToken cfg t2 (JwtService.generateTokens cfg t1 ident).refresh_token =
      .ok { sub := ident.sub, email := ident.email, role := ident.role,
            iat := some t1, exp := some (t1 + refreshExpirationOf cfg) } := by
  constructor <;>
    simp [JwtService.generateTokens, JwtService.generateAccessToken,
          JwtService.generateRefreshToken, JwtService.verifyAccessToken,
          JwtService.verifyRefreshToken, jwtSign, jwtVerify, hAccess, hRefresh]

/-- C1 witness: the round-trip at a concrete identity, configuration and
time. -/
theorem jwtService_generateTokens_verify_roundTrip_witness :
    (0 < 0 + accessExpirationOf cfg0 ∧ 0 < 0 + refreshExpirationOf cfg0) ∧
    (JwtService.verifyAccessToken cfg0 0 (JwtService.generateTokens cfg0 0 ident0).access_token =
      .ok { sub := "id-1", email := "a@x.com", role := "customer",
            iat := some 0, exp := some 900 } ∧
    JwtService.verifyRefreshToken cfg0 0 (JwtService.generateTokens cfg0 0 ident0).refresh_token =
      .ok { sub := "id-1", email := "a@x.com", role := "customer",
            iat := some 0, exp := some 604800 }) :=
  ⟨⟨by decide, by decide⟩,
   jwtService_generateTokens_verify_roundTrip cfg0 0 0 ident0 (by decide) (by decide)⟩

/-- C2: every malformed, wrong-secret or expired token is rejected by
`verifyAccessToken` and `verifyRefreshToken` with one fixed error per
verifier (401, differing only in the access/refresh label), and no payload
is ever returned; in particular an expired token and a tampered token
yield the same error. -/
theorem jwtService_verify_rejects_invalid (cfg : Config) (now : Nat) (t : Token)
    (h : tokenInvalidFor t (secretOf cfg) now) :
    JwtService.verifyAccessToken cfg now t =
      .error (.unauthorized "Invalid or expired access token") ∧
    JwtService.verifyRefreshToken cfg now t =
      .error (.unauthorized "Invalid or expired refresh token") := by
  have hverify : jwtVerify t (secretOf cfg) now = none := by
    rcases h with ⟨raw, rfl⟩ | ⟨claims, s, rfl, hs⟩ | ⟨claims, rfl, hexp⟩
    · rfl
    · simp [jwtVerify, hs]
    · simp [jwtVerify]
      omega
  simp [JwtService.verifyAccessToken, JwtService.verifyRefreshToken, hverify]

/-- C2 witness: an expired token (signed under the right secret) and the
rejection it produces. -/
theorem jwtService_verify_rejects_invalid_witness :
    tokenInvalidFor (Token.signed claims0 "default-secret") (secretOf cfg0) 10 ∧
    (JwtService.verifyAccessToken cfg0 10 (Token.signed claims0 "default-secret") =
      .error (.unauthorized "Invalid or expired access token") ∧
    JwtService.verifyRefreshToken cfg0 10 (Token.signed claims0 "default-secret") =
      .error (.unauthorized "Invalid or expired refresh token")) :=
  ⟨Or.inr (Or.inr ⟨claims0, rfl, by decide⟩),
   jwtService_verify_rejects_invalid cfg0 10 (Token.signed claims0 "default-secret")
     (Or.inr (Or.inr ⟨claims0, rfl, by decide⟩))⟩

/-- C7 amended: for every refresh token, if verification succeeds the
orchestrator's `refreshTokens` returns a brand-new pair built from only
the `sub`, `email` and `role` extracted from the old token (its `iat` and
`exp` are dropped), without any user-store access (the function takes no
store); if verification fails, the orchestrator passes the token
service's `UnauthorizedException('Invalid or expired refresh token')`
through to the caller unchanged. -/
theorem authService_refreshTokens_spec (cfg : Config) (now : Nat) (t : Token) :
    (jwtVerify t (secretOf cfg) now = none →
      AuthService.refreshTokens cfg now t =
        .error (.unauthorized "Invalid or expired refresh token")) ∧
    (∀ claims, jwtVerify t (secretOf cfg) now = some claims →
      AuthService.refreshTokens cfg now t =
        .ok (JwtService.generateTokens cfg now
          { sub := claims.sub, email := claims.email, role := claims.role })) := by
  constructor
  · intro h
    simp [AuthService.refreshTokens, JwtService.refreshTokens,
          JwtService.verifyRefreshToken, h]
  · intro claims h
    simp [AuthService.refreshTokens, JwtService.refreshTokens,
          JwtService.verifyRefreshToken, h]

/-- C7 counterexample: on an invalid refresh token the orchestrator's
caller-facing error keeps the token service's message; it is not the
`InvalidCredentialsError` (`'Invalid credentials'`) of the login path. -/
theorem authService_refreshTokens_not_credentials_counterexample :
    AuthService.refreshTokens cfg0 0 (Token.malformed "bad") =
      .error (.unauthorized "Invalid or expired refresh token") ∧
    AuthService.refreshTokens cfg0 0 (Token.malformed "bad") ≠
      .error (.unauthorized "Invalid credentials") := by
  refine ⟨rfl, ?_⟩
  intro h
  simp [AuthService.refreshTokens, JwtService.refreshTokens,
        JwtService.verifyRefreshToken, jwtVerify] at h

/-- C7 witness: both branches of the amended statement at concrete
tokens. -/
theorem authService_refreshTokens_spec_witness :
    (jwtVerify (Token.malformed "bad") (secretOf cfg0) 0 = none ∧
      AuthService.refreshTokens cfg0 0 (Token.malformed "bad") =
        .error (.unauthorized "Invalid or expired refresh token")) ∧
    (jwtVerify (Token.signed claims0 "default-secret") (secretOf cfg0) 0 = some claims0 ∧
      AuthService.refreshTokens cfg0 0 (Token.signed claims0 "default-secret") =
        .ok (JwtService.generateTokens cfg0 0
          { sub := claims0.sub, email := claims0.email, role := claims0.role })) :=
  ⟨⟨rfl, (authService_refreshTokens_spec cfg0 0 (Token.malformed "bad")).1 rfl⟩,
   ⟨by decide, (authService_refreshTokens_spec cfg0 0 (Token.signed claims0 "default-secret")).2
      claims0 (by decide)⟩⟩

/-- C10: `findByEmail` and `findById` never throw — a failing store query
yields `null`, indistinguishable from absence: for any store whose query
errors and any store whose query returns no row, both lookups return
`none`, and the result is always either a profile or `none`. -/
theorem usersService_find_storeFailure_is_absence (env env' : StoreEnv)
    (email id err err' : String) :
    (env.profilesFindUniqueByEmail email = .error err →
      UsersService.findByEmail env email = none) ∧
    (env.profilesFindUniqueById id = .error err' →
      UsersService.findById env id = none) ∧
    (env.profilesFindUniqueByEmail email = .error err →
      env'.profilesFindUniqueByEmail email = .ok none →
      UsersService.findByEmail env email = UsersService.findByEmail env' email) ∧
    (∀ e2, UsersService.findByEmail env e2 = none ∨
      ∃ u, UsersService.findByEmail env e2 = some u) := by
  refine ⟨?_, ?_, ?_, ?_⟩
  · intro h; simp [UsersService.findByEmail, h]
  · intro h; simp [UsersService.findById, h]
  · intro h h'; simp [UsersService.findByEmail, h, h']
  · intro e2
    cases hfind : UsersService.findByEmail env e2 with
    | none => exact Or.inl rfl
    | some u => exact Or.inr ⟨u, rfl⟩

/-- C10 witness: a concrete failing store and a concrete empty store give
the same lookup results. -/
theorem usersService_find_storeFailure_is_absence_witness :
    (storeFailing.profilesFindUniqueByEmail "a@x.com" = .error "DB_DOWN" ∧
      UsersService.findByEmail storeFailing "a@x.com" = none) ∧
    (storeFailing.profilesFindUniqueById "id-1" = .error "DB_DOWN" ∧
      UsersService.findById storeFailing "id-1" = none) ∧
    (storeEmpty.profilesFindUniqueByEmail "a@x.com" = .ok none ∧
      UsersService.findByEmail storeFailing "a@x.com" =
        UsersService.findByEmail storeEmpty "a@x.com") :=
  ⟨⟨rfl, (usersService_find_storeFailure_is_absence storeFailing storeEmpty
      "a@x.com" "id-1" "DB_DOWN" "DB_DOWN").1 rfl⟩,
   ⟨rfl, (usersService_find_storeFailure_is_absence storeFailing storeEmpty
      "a@x.com" "id-1" "DB_DOWN" "DB_DOWN").2.1 rfl⟩,
   ⟨rfl, (usersService_find_storeFailure_is_absence storeFailing storeEmpty
      "a@x.com" "id-1" "DB_DOWN" "DB_DOWN").2.2.1 rfl rfl⟩⟩

/-- C9: the authentication gate constructs the identity it attaches to the
request solely from the verified access token's payload, with no
user-store lookup — for any two user-store states the same request is
admitted with the same attached identity, and on a valid token the
attached identity is exactly `{id := sub, email, role}` from the token. -/
theorem jwtAuthGuard_identity_from_token_only (store1 store2 : StoreEnv) (cfg : Config)
    (now : Nat) (decode : String → Token) (authHeader : Option String) :
    JwtAuthGuard.canActivateWithStore store1 cfg now decode authHeader =
      JwtAuthGuard.canActivateWithStore store2 cfg now decode authHeader ∧
    (∀ h tokenStr claims, authHeader = some h →
      JwtService.extractTokenFromHeader h = some tokenStr →
      jwtVerify (decode tokenStr) (secretOf cfg) now = some claims →
      JwtAuthGuard.canActivate cfg now decode authHeader =
        .ok { id := claims.sub, email := claims.email, role := claims.role }) := by
  refine ⟨rfl, ?_⟩
  rintro h tokenStr claims rfl hext hver
  have hh : ¬h = "" := by
    intro h0
    rw [h0] at hext
    simp [JwtService.extractTokenFromHeader] at hext
  simp [JwtAuthGuard.canActivate, hh, hext, JwtService.verifyAccessToken, hver]

/-- C9 witness: two different stores, one valid bearer request, the same
admitted identity. -/
theorem jwtAuthGuard_identity_from_token_only_witness :
    JwtAuthGuard.canActivateWithStore storeFailing cfg0 0
        (fun _ => Token.signed claims0 "default-secret") (some "Bearer tok") =
      JwtAuthGuard.canActivateWithStore storeEmpty cfg0 0
        (fun _ => Token.signed claims0 "default-secret") (some "Bearer tok") ∧
    (JwtService.extractTokenFromHeader "Bearer tok" = some "tok" ∧
      jwtVerify (Token.signed claims0 "default-secret") (secretOf cfg0) 0 = some claims0 ∧
      JwtAuthGuard.canActivate cfg0 0 (fun _ => Token.signed claims0 "default-secret")
          (some "Bearer tok") =
        .ok { id := "id-1", email := "a@x.com", role := "customer" }) :=
  ⟨(jwtAuthGuard_identity_from_token_only storeFailing storeEmpty cfg0 0
      (fun _ => Token.signed claims0 "default-secret") (some "Bearer tok")).1,
   by decide,
   by decide,
   (jwtAuthGuard_identity_from_token_only storeFailing storeEmpty cfg0 0
      (fun _ => Token.signed claims0 "default-secret") (some "Bearer tok")).2
     "Bearer tok" "tok" claims0 rfl (by decide) (by decide)⟩

/-- C3: two-run indistinguishability of login failure — a registered email
with a wrong password and a never-registered email with any password both
fail with the same `UnauthorizedException('Invalid credentials')`, so the
error does not reveal whether the email exists. -/
theorem authService_login_failure_indistinguishable
    (env : StoreEnv) (crypto : CryptoEnv) (cfg : Config) (now : Nat)
    (e p e' p' : String) (authUser : AuthUser) (hash : String) (user : Profile)
    (hprof : UsersService.findByEmail env e = some user)
    (hauth : env.usersFindFirstByEmail e = .ok (some authUser))
    (hpw : authUser.encrypted_password = some hash)
    (hcmp : crypto.bcryptCompare p hash = .ok false)
    (hmiss : UsersService.findByEmail env e' = none) :
    AuthService.login env crypto cfg now { email := e, password := p } =
      .error (.unauthorized "Invalid credentials") ∧
    AuthService.login env crypto cfg now { email := e', password := p' } =
      .error (.unauthorized "Invalid credentials") ∧
    AuthService.login env crypto cfg now { email := e, password := p } =
      AuthService.login env crypto cfg now { email := e', password := p' } := by
  have h1 : AuthService.login env crypto cfg now { email := e, password := p } =
      .error (.unauthorized "Invalid credentials") := by
    simp [AuthService.login, hprof, AuthService.validateUser, hauth, hpw,
          PasswordService.comparePasswords, hcmp]
  have h2 : AuthService.login env crypto cfg now { email := e', password := p' } =
      .error (.unauthorized "Invalid credentials") := by
    simp [AuthService.login, hmiss]
  exact ⟨h1, h2, h1.trans h2.symm⟩

/-- C3 witness: a wrong password for the registered `a@x.com` and any
password for the never-registered `b@x.com` produce the identical error. -/
theorem authService_login_failure_indistinguishable_witness :
    AuthService.login storeOneUser cryptoNoMatch cfg0 0
        { email := "a@x.com", password := "wrong" } =
      .error (.unauthorized "Invalid credentials") ∧
    AuthService.login storeOneUser cryptoNoMatch cfg0 0
        { email := "b@x.com", password := "whatever" } =
      .error (.unauthorized "Invalid credentials") ∧
    AuthService.login storeOneUser cryptoNoMatch cfg0 0
        { email := "a@x.com", password := "wrong" } =
      AuthService.login storeOneUser cryptoNoMatch cfg0 0
        { email := "b@x.com", password := "whatever" } :=
  authService_login_failure_indistinguishable storeOneUser cryptoNoMatch cfg0 0
    "a@x.com" "wrong" "b@x.com" "whatever" authUser0 "hash-of-pw" profile0
    (by decide) (by decide) rfl rfl (by decide)

/-- C8: the role gate — no declared roles (or an empty set) passes; a
missing authenticated identity fails with the 401 unauthenticated error; a
role outside the declared set fails with the 403 forbidden error, distinct
from the 401; a role inside the set passes. -/
theorem rolesGuard_canActivate_spec (requiredRoles : Option (List String))
    (user : Option ReqUser) :
    ((requiredRoles = none ∨ requiredRoles = some []) →
      RolesGuard.canActivate requiredRoles user = .ok true) ∧
    (∀ roles, requiredRoles = some roles → roles ≠ [] → user = none →
      RolesGuard.canActivate requiredRoles user =
        .error (.unauthorized "User not authenticated") ∧
      (AuthError.unauthorized "User not authenticated").status = 401) ∧
    (∀ roles u, requiredRoles = some roles → roles ≠ [] → user = some u → u.role ≠ "" →
      (u.role ∉ roles →
        RolesGuard.canActivate requiredRoles user =
          .error (.forbidden "Insufficient permissions") ∧
        (AuthError.forbidden "Insufficient permissions").status = 403 ∧
        (AuthError.forbidden "Insufficient permissions").status ≠
          (AuthError.unauthorized "User not authenticated").status) ∧
      (u.role ∈ roles → RolesGuard.canActivate requiredRoles user = .ok true)) := by
  refine ⟨?_, ?_, ?_⟩
  · rintro (rfl | rfl) <;> simp [RolesGuard.canActivate]
  · rintro roles rfl hne rfl
    refine ⟨?_, rfl⟩
    simp [RolesGuard.canActivate, List.isEmpty_iff, hne]
  · rintro roles u rfl hne rfl hrole
    constructor
    · intro hmem
      refine ⟨?_, rfl, by decide⟩
      simp [RolesGuard.canActivate, List.isEmpty_iff, hne, hrole, hmem]
    · intro hmem
      simp [RolesGuard.canActivate, List.isEmpty_iff, hne, hrole, hmem]

/-- C8 witness: all four outcomes at concrete role sets and identities. -/
theorem rolesGuard_canActivate_spec_witness :
    RolesGuard.canActivate none (some { id := "id-1", email := "a@x.com", role := "customer" }) =
      .ok true ∧
    (RolesGuard.canActivate (some ["admin"]) none =
      .error (.unauthorized "User not authenticated")) ∧
    (RolesGuard.canActivate (some ["admin"])
        (some { id := "id-1", email := "a@x.com", role := "customer" }) =
      .error (.forbidden "Insufficient permissions")) ∧
    (RolesGuard.canActivate (some ["admin"])
        (some { id := "id-2", email := "b@x.com", role := "admin" }) = .ok true) :=
  ⟨(rolesGuard_canActivate_spec none
      (some { id := "id-1", email := "a@x.com", role := "customer" })).1 (Or.inl rfl),
   ((rolesGuard_canActivate_spec (some ["admin"]) none).2.1 ["admin"] rfl
      (by decide) rfl).1,
   (((rolesGuard_canActivate_spec (some ["admin"])
        (some { id := "id-1", email := "a@x.com", role := "customer" })).2.2 ["admin"]
      { id := "id-1", email := "a@x.com", role := "customer" } rfl (by decide) rfl
      (by decide)).1 (by decide)).1,
   ((rolesGuard_canActivate_spec (some ["admin"])
        (some { id := "id-2", email := "b@x.com", role := "admin" })).2.2 ["admin"]
      { id := "id-2", email := "b@x.com", role := "admin" } rfl (by decide) rfl
      (by decide)).2 (by decide)⟩

/-- C5 counterexample: a header of three space-separated segments with a
`Bearer` first segment does not yield `null` — the code reads only the
first two segments and returns the second. -/
theorem jwtService_extractTokenFromHeader_threeSegments_counterexample :
    JwtService.extractTokenFromHeader "Bearer abc def" = some "abc" ∧
    jsSplitOnSpace "Bearer abc def" = ["Bearer", "abc", "def"] := by
  decide

/-- C5 amended: `extractTokenFromHeader` returns a token exactly when the
header splits on spaces into a first segment `"Bearer"` and a non-empty
second segment, in which case it returns the second segment, ignoring any
further segments; every other header value (missing/empty header, wrong
scheme, empty token segment) yields `null`. -/
theorem jwtService_extractTokenFromHeader_spec (h t : String) :
    JwtService.extractTokenFromHeader h = some t ↔
      (∃ rest, jsSplitOnSpace h = "Bearer" :: t :: rest) ∧ t ≠ "" := by
  constructor
  · intro hsome
    by_cases hh : h = ""
    · rw [hh] at hsome
      simp [JwtService.extractTokenFromHeader] at hsome
    · rcases hsplit : jsSplitOnSpace h with _ | ⟨ty, _ | ⟨tok, rest⟩⟩
      · simp [JwtService.extractTokenFromHeader, hh, hsplit] at hsome
      · simp [JwtService.extractTokenFromHeader, hh, hsplit] at hsome
      · by_cases hcond : ty = "Bearer" ∧ tok ≠ ""
        · have htok : tok = t := by
            simp [JwtService.extractTokenFromHeader, hh, hsplit, hcond] at hsome
            exact hsome
          exact ⟨⟨rest, by rw [hcond.1, htok]⟩, htok ▸ hcond.2⟩
        · simp [JwtService.extractTokenFromHeader, hh, hsplit, hcond] at hsome
  · rintro ⟨⟨rest, hsplit⟩, ht⟩
    have hh : ¬h = "" := by
      intro h0
      rw [h0] at hsplit
      have hnil : jsSplitOnSpace "" = [""] := rfl
      rw [hnil] at hsplit
      simp at hsplit
    simp [JwtService.extractTokenFromHeader, hh, hsplit, ht]

/-- C5 witness: a well-formed bearer header, its split shape, and the
extracted token. -/
theorem jwtService_extractTokenFromHeader_spec_witness :
    ((∃ rest, jsSplitOnSpace "Bearer tok" = "Bearer" :: "tok" :: rest) ∧ "tok" ≠ "") ∧
    JwtService.extractTokenFromHeader "Bearer tok" = some "tok" :=
  ⟨⟨⟨[], by decide⟩, by decide⟩,
   (jwtService_extractTokenFromHeader_spec "Bearer tok" "tok").mpr
     ⟨⟨[], by decide⟩, by decide⟩⟩

/-- Bridge: the `/[a-z]/` test succeeds exactly when some character of the
password is an ASCII lowercase letter. -/
theorem hasLowercase_iff (p : String) :
    hasLowercase p = true ↔ ∃ c ∈ p.data, 'a' ≤ c ∧ c ≤ 'z' := by
  simp [hasLowercase, List.any_eq_true]

/-- Bridge: the `/[A-Z]/` test succeeds exactly when some character of the
password is an ASCII uppercase letter. -/
theorem hasUppercase_iff (p : String) :
    hasUppercase p = true ↔ ∃ c ∈ p.data, 'A' ≤ c ∧ c ≤ 'Z' := by
  simp [hasUppercase, List.any_eq_true]

/-- Bridge: the `/\d/` test succeeds exactly when some character of the
password is an ASCII digit. -/
theorem hasDigit_iff (p : String) :
    hasDigit p = true ↔ ∃ c ∈ p.data, '0' ≤ c ∧ c ≤ '9' := by
  simp [hasDigit, List.any_eq_true]

/-- Bridge: the `/[@$!%*?&]/` test succeeds exactly when some character of
the password is in the fixed special-character set. -/
theorem hasSpecialChar_iff (p : String) :
    hasSpecialChar p = true ↔ ∃ c ∈ p.data, c ∈ ['@', '$', '!', '%', '*', '?', '&'] := by
  simp [hasSpecialChar, List.any_eq_true]

/-- C4: `validatePasswordStrength` returns `isValid = true` exactly when
the password has length ≥ 8 and contains a lowercase letter, an uppercase
letter, a digit and a character from `{@ $ ! % * ? &}`; its `errors` list
carries exactly one fixed message per violated rule, all reported
simultaneously, and is empty exactly when `isValid` is `true`. -/
theorem passwordService_validatePasswordStrength_spec (p : String) :
    ((PasswordService.validatePasswordStrength p).errors =
      (if p.length < 8 then [lengthError] else []) ++
      (if ∃ c ∈ p.data, 'a' ≤ c ∧ c ≤ 'z' then [] else [lowercaseError]) ++
      (if ∃ c ∈ p.data, 'A' ≤ c ∧ c ≤ 'Z' then [] else [uppercaseError]) ++
      (if ∃ c ∈ p.data, '0' ≤ c ∧ c ≤ '9' then [] else [digitError]) ++
      (if ∃ c ∈ p.data, c ∈ ['@', '$', '!', '%', '*', '?', '&'] then []
       else [specialCharError])) ∧
    ((PasswordService.validatePasswordStrength p).isValid = true ↔
      (8 ≤ p.length ∧ (∃ c ∈ p.data, 'a' ≤ c ∧ c ≤ 'z') ∧
       (∃ c ∈ p.data, 'A' ≤ c ∧ c ≤ 'Z') ∧ (∃ c ∈ p.data, '0' ≤ c ∧ c ≤ '9') ∧
       (∃ c ∈ p.data, c ∈ ['@', '$', '!', '%', '*', '?', '&']))) ∧
    ((PasswordService.validatePasswordStrength p).errors = [] ↔
      (PasswordService.validatePasswordStrength p).isValid = true) := by
  have h2 := hasLowercase_iff p
  have h3 := hasUppercase_iff p
  have h4 := hasDigit_iff p
  have h5 := hasSpecialChar_iff p
  refine ⟨?_, ?_, ?_⟩
  · rw [if_congr h2.symm (rfl : ([] : List String) = []) (rfl : [lowercaseError] = _),
        if_congr h3.symm (rfl : ([] : List String) = []) (rfl : [uppercaseError] = _),
        if_congr h4.symm (rfl : ([] : List String) = []) (rfl : [digitError] = _),
        if_congr h5.symm (rfl : ([] : List String) = []) (rfl : [specialCharError] = _)]
    by_cases b1 : p.length < 8 <;>
    by_cases b2 : hasLowercase p = true <;>
    by_cases b3 : hasUppercase p = true <;>
    by_cases b4 : hasDigit p = true <;>
    by_cases b5 : hasSpecialChar p = true <;>
      simp [PasswordService.validatePasswordStrength, b1, b2, b3, b4, b5]
  · rw [← h2, ← h3, ← h4, ← h5]
    by_cases b1 : p.length < 8 <;>
    by_cases b2 : hasLowercase p = true <;>
    by_cases b3 : hasUppercase p = true <;>
    by_cases b4 : hasDigit p = true <;>
    by_cases b5 : hasSpecialChar p = true <;>
      (simp [PasswordService.validatePasswordStrength, b1, b2, b3, b4, b5] <;> omega)
  · rw [show (PasswordService.validatePasswordStrength p).isValid =
        (PasswordService.validatePasswordStrength p).errors.isEmpty from rfl,
      List.isEmpty_iff]

/-- C4 witness: a strong password is accepted; `"aaaa"` is rejected with
exactly the four messages of its violated rules. -/
theorem passwordService_validatePasswordStrength_spec_witness :
    (PasswordService.validatePasswordStrength "Aa1@xyzw").isValid = true ∧
    (PasswordService.validatePasswordStrength "aaaa").errors =
      [lengthError, uppercaseError, digitError, specialCharError] :=
  ⟨(passwordService_validatePasswordStrength_spec "Aa1@xyzw").2.1.mpr (by decide),
   ((passwordService_validatePasswordStrength_spec "aaaa").1).trans (by decide)⟩

/-- C6: registration fails early and atomically — a weak password yields a
400 error carrying every violated rule with no store write; an existing
profile for the email yields the duplicate-email 409 error with no store
write; only when both checks pass does it hash the password, persist the
`auth.users` credential row and the profile with role defaulting to
`customer`, and return a token pair. -/
theorem authService_register_spec (env : StoreEnv) (crypto : CryptoEnv) (userId : String)
    (cfg : Config) (now : Nat) (dto : RegisterDto) :
    ((PasswordService.validatePasswordStrength dto.password).isValid = false →
      AuthService.register env crypto userId cfg now dto =
        (.error (.badRequest "Password does not meet strength requirements"
          (PasswordService.validatePasswordStrength dto.password).errors), [])) ∧
    (∀ existing, (PasswordService.validatePasswordStrength dto.password).isValid = true →
      UsersService.findByEmail env dto.email = some existing →
      AuthService.register env crypto userId cfg now dto =
        (.error (.conflict "User with this email already exists"), [])) ∧
    (∀ hashed au,
      (PasswordService.validatePasswordStrength dto.password).isValid = true →
      UsersService.findByEmail env dto.email = none →
      crypto.bcryptHash dto.password = .ok hashed →
      env.usersCreate { id := userId, email := dto.email,
                        encrypted_password := some hashed } = .ok au →
      env.profilesCreate { id := userId, email := dto.email,
                           full_name := some dto.full_name,
                           role := some "customer" } =
        .ok { id := userId, email := dto.email,
              full_name := some dto.full_name, role := some "customer" } →
      AuthService.register env crypto userId cfg now dto =
        (.ok { access_token := (JwtService.generateTokens cfg now
                 { sub := userId, email := dto.email, role := "customer" }).access_token,
               refresh_token := (JwtService.generateTokens cfg now
                 { sub := userId, email := dto.email, role := "customer" }).refresh_token,
               user := { id := userId, email := dto.email, role := some "customer",
                         full_name := dto.full_name } },
         [.usersCreate { id := userId, email := dto.email,
                         encrypted_password := some hashed },
          .profilesCreate { id := userId, email := dto.email,
                            full_name := some dto.full_name,
                            role := some "customer" }])) := by
  refine ⟨?_, ?_, ?_⟩
  · intro hweak
    simp [AuthService.register, hweak]
  · intro existing hvalid hdup
    simp [AuthService.register, hvalid, hdup]
  · intro hashed au hvalid hnone hhash hu hp
    simp [AuthService.register, hvalid, hnone, PasswordService.hashPassword, hhash,
          UsersService.create, hu, hp]

/-- C6 witness: a weak-password rejection, a duplicate-email rejection and
a successful registration, each with the store writes it performs. -/
theorem authService_register_spec_witness :
    (AuthService.register storeEmpty cryptoNoMatch "uid-1" cfg0 0
        { email := "a@x.com", password := "weak", full_name := "A" } =
      (.error (.badRequest "Password does not meet strength requirements"
        (PasswordService.validatePasswordStrength "weak").errors), [])) ∧
    (AuthService.register storeOneUser cryptoNoMatch "uid-1" cfg0 0
        { email := "a@x.com", password := "Aa1@xyzw", full_name := "A" } =
      (.error (.conflict "User with this email already exists"), [])) ∧
    (AuthService.register storeEmpty cryptoNoMatch "uid-1" cfg0 0
        { email := "a@x.com", password := "Aa1@xyzw", full_name := "A" } =
      (.ok { access_token := (JwtService.generateTokens cfg0 0
               { sub := "uid-1", email := "a@x.com", role := "customer" }).access_token,
             refresh_token := (JwtService.generateTokens cfg0 0
               { sub := "uid-1", email := "a@x.com", role := "customer" }).refresh_token,
             user := { id := "uid-1", email := "a@x.com", role := some "customer",
                       full_name := "A" } },
       [.usersCreate { id := "uid-1", email := "a@x.com",
                       encrypted_password := some "bcrypt-Aa1@xyzw" },
        .profilesCreate { id := "uid-1", email := "a@x.com",
                          full_name := some "A", role := some "customer" }])) :=
  ⟨(authService_register_spec storeEmpty cryptoNoMatch "uid-1" cfg0 0
      { email := "a@x.com", password := "weak", full_name := "A" }).1 (by decide),
   (authService_register_spec storeOneUser cryptoNoMatch "uid-1" cfg0 0
      { email := "a@x.com", password := "Aa1@xyzw", full_name := "A" }).2.1 profile0
     (by decide) (by decide),
   (authService_register_spec storeEmpty cryptoNoMatch "uid-1" cfg0 0
      { email := "a@x.com", password := "Aa1@xyzw", full_name := "A" }).2.2
     "bcrypt-Aa1@xyzw"
     { id := "uid-1", email := "a@x.com", encrypted_password := some "bcrypt-Aa1@xyzw" }
     (by decide) (by decide) rfl rfl rfl⟩

end ECommerceAuth
